import Mathlib

/-!
Shallow embedding of `app.py` (Prostate Cancer Exploration Assistant).

The app's own logic is the orchestration of external Snowflake calls:
semantic (Cortex) search, keyword (SQL `CONTAINS`) search, LLM completion,
and inserts/selects on the `QUERIES`/`INSIGHTS`/`FEEDBACKLOGS` tables.
We model the external world as an `Env` of oracles; `Except.error e`
models a raised exception carrying message `e`.  Each handler is a pure
function from inputs and oracles to the trace of external calls it makes
(`Event`), the user-visible widget outputs it emits (`Msg`), and — for the
store-backed handlers — the resulting store.
-/

namespace App

/-- `NUM_CHUNKS` from app.py: number of chunks retrieved for context. -/
def NUM_CHUNKS : Nat := 3

/-- A document row with the fields the app reads (`TITLE`, `CONTENT`). -/
structure Doc where
  TITLE : String
  CONTENT : String
deriving DecidableEq

/-- User-visible outputs, in emission order: `st.error`, `st.warning`,
`st.success`, `st.markdown`, `st.json` (document dump), `st.write`. -/
inductive Msg where
  | error (s : String)
  | warning (s : String)
  | success (s : String)
  | markdown (s : String)
  | json (docs : List Doc)
  | write (s : String)
deriving DecidableEq

/-- Calls made during one trigger run: the two search paths, an invocation
of `generate_insights`, the completion endpoint, and the two audit writes. -/
inductive Event where
  | cortexSearch (query : String) (topK : Nat)
  | sqlSearch (query : String) (limit : Nat)
  | generate (context : String)
  | complete (model prompt : String)
  | logQuery (text : String) (userId : Int)
  | logInsight (text : String) (queryId : Int)
deriving DecidableEq

/-- Recognizer for `Event.generate`. -/
def Event.isGenerate : Event → Bool
  | .generate _ => true
  | _ => false

/-- Recognizer for `Event.complete`. -/
def Event.isComplete : Event → Bool
  | .complete _ _ => true
  | _ => false

/-- Recognizer for `Event.logQuery`. -/
def Event.isLogQuery : Event → Bool
  | .logQuery _ _ => true
  | _ => false

/-- Recognizer for `Event.logInsight`. -/
def Event.isLogInsight : Event → Bool
  | .logInsight _ _ => true
  | _ => false

/-- The external world for one run: outcome of each Snowflake call the app
can issue.  `cortex q k` is the semantic search at `top_k = k`; `sql q k`
the keyword search at `LIMIT k`; `complete model prompt` the list of
response rows; `logQuery text uid` the `MAX(QUERYID)` reselected after the
insert (`none` models SQL `NULL`); `logInsight text qid` the insight
insert.  `Except.error e` models a raised exception. -/
structure Env where
  cortex : String → Nat → Except String (List Doc)
  sql : String → Nat → Except String (List Doc)
  complete : String → String → Except String (List String)
  logQuery : String → Int → Except String (Option Int)
  logInsight : String → Int → Except String Unit

/-- `fetch_documents_cortex` (app.py:26-43): semantic search at
`top_k = NUM_CHUNKS`; any exception is swallowed and yields `[]`. -/
def fetch_documents_cortex (env : Env) (query_text : String) :
    List Doc × List Event :=
  match env.cortex query_text NUM_CHUNKS with
  | .ok data => (data, [.cortexSearch query_text NUM_CHUNKS])
  | .error _ => ([], [.cortexSearch query_text NUM_CHUNKS])

/-- `fetch_documents_sql` (app.py:46-61): keyword `CONTAINS` search at
`LIMIT NUM_CHUNKS`; an exception is reported via `st.error` and yields `[]`. -/
def fetch_documents_sql (env : Env) (query_text : String) :
    List Doc × List Event × List Msg :=
  match env.sql query_text NUM_CHUNKS with
  | .ok data => (data, [.sqlSearch query_text NUM_CHUNKS], [])
  | .error e => ([], [.sqlSearch query_text NUM_CHUNKS],
      [.error ("Error fetching documents using SQL search: " ++ e)])

/-- The combined document fetch of the button handler (app.py:140-143):
try Cortex first, silently fall back to the SQL search when it yields `[]`. -/
def fetch_documents (env : Env) (query_text : String) :
    List Doc × List Event × List Msg :=
  let c := fetch_documents_cortex env query_text
  if c.1.isEmpty then
    let s := fetch_documents_sql env query_text
    (s.1, c.2 ++ s.2.1, s.2.2)
  else
    (c.1, c.2, [])

/-- Python's `not s.strip()` test: the string consists of whitespace only.
The stripped string itself is never used by the app, only its truthiness. -/
def isBlank (s : String) : Bool :=
  s.toList.all Char.isWhitespace

/-- The f-string prompt of `generate_insights` (app.py:70-75). -/
def promptFor (context : String) : String :=
  "\n    You are an expert assistant providing insights based on the following context:\n    Context: "
    ++ context
    ++ "\n    Question: What are the key resistance mechanisms in prostate cancer related to AR-V7 and other therapies?\n    Answer:\n    "

/-- `generate_insights` (app.py:64-83): short-circuits when
`not context.strip()`, otherwise calls the completion endpoint and converts
every exception into a returned string. -/
def generate_insights (env : Env) (context : String) : String × List Event :=
  if isBlank context then
    ("No valid context provided for generating insights.", [.generate context])
  else
    match env.complete "mistral-large2" (promptFor context) with
    | .ok [] =>
        ("No response generated.",
         [.generate context, .complete "mistral-large2" (promptFor context)])
    | .ok (r :: _) =>
        (r, [.generate context, .complete "mistral-large2" (promptFor context)])
    | .error e =>
        ("Error generating insights: " ++ e,
         [.generate context, .complete "mistral-large2" (promptFor context)])

/-- `log_query_and_get_query_id` (app.py:86-106): insert then reselect
`MAX(QUERYID)`; exceptions are reported via `st.error` and yield `None`. -/
def log_query_and_get_query_id (env : Env) (query_text : String) (user_id : Int) :
    Option Int × List Event × List Msg :=
  match env.logQuery query_text user_id with
  | .ok qid => (qid, [.logQuery query_text user_id], [])
  | .error e =>
      (none, [.logQuery query_text user_id],
       [.error ("Error logging query: " ++ e)])

/-- `log_insights` (app.py:109-122): insert the insight row, reporting
success or failure via the UI. -/
def log_insights (env : Env) (insight_text : String) (query_id : Int) :
    List Event × List Msg :=
  match env.logInsight insight_text query_id with
  | .ok _ => ([.logInsight insight_text query_id],
      [.success "Insights logged successfully!"])
  | .error e => ([.logInsight insight_text query_id],
      [.error ("Error logging insights: " ++ e)])

/-- Python truthiness of the `query_id` value: `None` and `0` are falsy. -/
def truthyId : Option Int → Bool
  | none => false
  | some n => n != 0

/-- Outcome of one "Fetch and Analyze" trigger: the calls made, the widget
outputs, and whether the script crashed with an unhandled exception
(`NameError` on the unassigned `context` variable). -/
structure RunResult where
  events : List Event
  msgs : List Msg
  crashed : Bool
deriving DecidableEq

/-- Lines 156-164 of app.py: the generation phase that runs once `context`
is assigned — generate, display, and (when `query_id` is truthy) log. -/
def genPhase (env : Env) (query_id : Option Int) (context : String) :
    List Event × List Msg :=
  if !isBlank context then
    let g := generate_insights env context
    if truthyId query_id then
      let li := log_insights env g.1 ((query_id.getD 0))
      (g.2 ++ li.1, [Msg.markdown "### Generated Insights", Msg.write g.1] ++ li.2)
    else
      (g.2, [Msg.markdown "### Generated Insights", Msg.write g.1])
  else
    ([], [.warning "No valid context found or provided."])

/-- The "Fetch and Analyze" button handler (app.py:133-166).  Mirrors the
Python control flow exactly: when `custom_context` is falsy the query is
logged first, and the document fetch and the assignment of `context` happen
only under `if query_id:`; on a falsy `query_id` the later
`context.strip()` reference therefore raises `NameError` (modelled by
`crashed := true`). -/
def fetchAndAnalyze (env : Env) (query custom_context : String) : RunResult :=
  if query ≠ "" ∨ custom_context ≠ "" then
    if custom_context = "" then
      let lq := log_query_and_get_query_id env query 1
      if truthyId lq.1 then
        let fd := fetch_documents env query
        let disp : List Msg × String :=
          if fd.1.isEmpty then
            ([], "")
          else
            ([Msg.markdown "### Retrieved Documents", Msg.json fd.1],
             String.intercalate "\n" (fd.1.map Doc.CONTENT))
        let gp := genPhase env lq.1 disp.2
        ⟨lq.2.1 ++ fd.2.1 ++ gp.1, lq.2.2 ++ fd.2.2 ++ disp.1 ++ gp.2, false⟩
      else
        ⟨lq.2.1, lq.2.2, true⟩
    else
      let gp := genPhase env none custom_context
      ⟨gp.1, gp.2, false⟩
  else
    ⟨[], [.warning "Please enter a query or input your own context."], false⟩

/-- A row of the `INSIGHTS` table.  Timestamps are modelled as naturals. -/
structure InsightRow where
  INSIGHTID : Nat
  INSIGHTTEXT : String
  QUERYID : Option Int
  GENERATEDAT : Nat
deriving DecidableEq

/-- A row of the `FEEDBACKLOGS` table. -/
structure FeedbackRow where
  FEEDBACKDETAILS : String
  FEEDBACKTYPE : String
  INSIGHTID : Nat
  LOGGEDAT : Nat
deriving DecidableEq

/-- The part of the relational store the feedback handlers touch. -/
structure Store where
  insights : List InsightRow
  feedback : List FeedbackRow
deriving DecidableEq

/-- One record of the feedback-log view (app.py:194-200's projection). -/
structure FeedbackView where
  FEEDBACKDETAILS : String
  FEEDBACKTYPE : String
  INSIGHTTEXT : String
  LOGGEDAT : Nat
deriving DecidableEq

/-- `ORDER BY LOGGEDAT DESC` as a relation on view records. -/
def viewGe (a b : FeedbackView) : Prop :=
  b.LOGGEDAT ≤ a.LOGGEDAT

instance : DecidableRel viewGe :=
  fun a b => Nat.decLe b.LOGGEDAT a.LOGGEDAT

instance : IsTotal FeedbackView viewGe :=
  ⟨fun a b => (Nat.le_total b.LOGGEDAT a.LOGGEDAT)⟩

instance : IsTrans FeedbackView viewGe :=
  ⟨fun _ _ _ h1 h2 => Nat.le_trans h2 h1⟩

/-- `ORDER BY GENERATEDAT DESC` as a relation on insight rows. -/
def insGe (a b : InsightRow) : Prop :=
  b.GENERATEDAT ≤ a.GENERATEDAT

instance : DecidableRel insGe :=
  fun a b => Nat.decLe b.GENERATEDAT a.GENERATEDAT

instance : IsTotal InsightRow insGe :=
  ⟨fun a b => (Nat.le_total b.GENERATEDAT a.GENERATEDAT)⟩

instance : IsTrans InsightRow insGe :=
  ⟨fun _ _ _ h1 h2 => Nat.le_trans h2 h1⟩

/-- The projected record the view builds from a feedback row and its
joined insight row. -/
def viewOf (fl : FeedbackRow) (i : InsightRow) : FeedbackView :=
  ⟨fl.FEEDBACKDETAILS, fl.FEEDBACKTYPE, i.INSIGHTTEXT, fl.LOGGEDAT⟩

/-- Relational semantics of the view's inner `JOIN ... ON FL.INSIGHTID =
I.INSIGHTID` (app.py:195-198), before ordering. -/
def joinWith (ins : List InsightRow) : List FeedbackRow → List FeedbackView
  | [] => []
  | fl :: rest =>
      ((ins.filter (fun i => i.INSIGHTID == fl.INSIGHTID)).map (viewOf fl))
        ++ joinWith ins rest

/-- The "View Feedback Logs" handler's result set (app.py:191-208): the
inner join ordered by `LOGGEDAT` descending. -/
def viewFeedbackLogs (s : Store) : List FeedbackView :=
  List.insertionSort viewGe (joinWith s.insights s.feedback)

/-- The `SELECT INSIGHTID ... ORDER BY GENERATEDAT DESC LIMIT 1` of the
feedback handler (app.py:174-177): the head of the rows sorted by
`GENERATEDAT` descending, `none` when the table is empty (in Python the
`[0]` then raises `IndexError`). -/
def latestInsight (s : Store) : Option InsightRow :=
  (List.insertionSort insGe s.insights).head?

/-- The "Submit Feedback" button handler (app.py:171-188) as a transition
on the store, given the feedback text, type and the insert timestamp. -/
def submitFeedback (s : Store) (feedback_text feedback_type : String) (now : Nat) :
    Store × List Msg :=
  if feedback_text ≠ "" then
    match latestInsight s with
    | none =>
        (s, [Msg.error "Error submitting feedback: list index out of range"])
    | some i =>
        ({ s with feedback :=
            s.feedback ++ [⟨feedback_text, feedback_type, i.INSIGHTID, now⟩] },
         [Msg.success "Feedback submitted successfully!"])
  else
    (s, [Msg.warning "Please provide feedback before submitting."])

/-! Concrete environments and stores used as witnesses and counterexamples. -/

/-- A benign environment: every external call succeeds. -/
def envOk : Env where
  cortex := fun _ _ => .ok []
  sql := fun _ _ => .ok []
  complete := fun _ _ => .ok ["a generated insight"]
  logQuery := fun _ _ => .ok (some 1)
  logInsight := fun _ _ => .ok ()

/-- A concrete document. -/
def docAlpha : Doc := ⟨"T1", "alpha"⟩

/-- Another concrete document. -/
def docBeta : Doc := ⟨"T2", "beta"⟩

/-- Environment whose semantic search raises and whose keyword search
finds one document. -/
def envSemFail : Env :=
  { envOk with
    cortex := fun _ _ => .error "cortex down",
    sql := fun _ _ => .ok [docAlpha] }

/-- Environment whose query-log write raises. -/
def envLogFail : Env :=
  { envOk with logQuery := fun _ _ => .error "store write failed" }

/-- Environment whose semantic search returns two documents with empty
`CONTENT` fields. -/
def envTwoEmptyDocs : Env :=
  { envOk with cortex := fun _ _ => .ok [⟨"t1", ""⟩, ⟨"t2", ""⟩] }

/-- Environment whose semantic search returns two documents with
non-empty `CONTENT` fields. -/
def envTwoDocs : Env :=
  { envOk with
    cortex := fun _ _ => .ok [docAlpha, docBeta],
    logQuery := fun _ _ => .ok (some 2) }

/-- Environment where both search paths raise. -/
def envBothFail : Env :=
  { envOk with
    cortex := fun _ _ => .error "cortex down",
    sql := fun _ _ => .error "sql down" }

/-- Environment whose completion endpoint raises. -/
def envGenFail : Env :=
  { envOk with complete := fun _ _ => .error "completion failed" }

/-- Environment whose completion endpoint returns an empty row set. -/
def envGenEmpty : Env :=
  { envOk with complete := fun _ _ => .ok [] }

/-- A store with one insight and two feedback rows sharing a timestamp. -/
def storeTie : Store :=
  ⟨[⟨1, "i1", none, 0⟩],
   [⟨"a", "Positive", 1, 7⟩, ⟨"b", "Negative", 1, 7⟩]⟩

/-- A store with two insights and no feedback. -/
def storeTwoInsights : Store :=
  ⟨[⟨1, "older", none, 3⟩, ⟨2, "newer", some 5, 8⟩], []⟩

/-! ### Helper lemmas -/

/-- The keyword search records exactly one `sqlSearch` call, at
`LIMIT NUM_CHUNKS`, whether it succeeds or raises. -/
theorem fetch_documents_sql_events (env : Env) (q : String) :
    (fetch_documents_sql env q).2.1 = [Event.sqlSearch q NUM_CHUNKS] := by
  rcases h : env.sql q NUM_CHUNKS with e | d <;>
    simp [fetch_documents_sql, h]

/-- On a non-blank context the generator records its own invocation and
exactly one completion-endpoint call, whatever the endpoint's outcome. -/
theorem generate_insights_events (env : Env) (c : String)
    (h : isBlank c = false) :
    (generate_insights env c).2 =
      [Event.generate c, Event.complete "mistral-large2" (promptFor c)] := by
  unfold generate_insights
  rcases hc : env.complete "mistral-large2" (promptFor c) with e | rs
  · simp [h, hc]
  · cases rs <;> simp [h, hc]

/-- The insight logger records exactly one `logInsight` call, whether the
insert succeeds or raises. -/
theorem log_insights_events (env : Env) (t : String) (qid : Int) :
    (log_insights env t qid).1 = [Event.logInsight t qid] := by
  rcases h : env.logInsight t qid with e | u <;>
    simp [log_insights, h]

/-! ### Claims -/

/-- Claim C1: for every non-empty query, when the Cortex semantic search
raises or returns an empty sequence, the combined document fetch falls back
silently to the SQL keyword search: it returns exactly the keyword search's
documents and messages (the semantic-search error is never surfaced), and
the keyword search is invoked at the same `query_text` with the same limit
`NUM_CHUNKS = 3`. -/
theorem C1_semantic_fallback (env : Env) (q : String) (hq : q ≠ "")
    (h : (∃ e, env.cortex q NUM_CHUNKS = Except.error e) ∨
      env.cortex q NUM_CHUNKS = Except.ok []) :
    (fetch_documents env q).1 = (fetch_documents_sql env q).1 ∧
    (fetch_documents env q).2.2 = (fetch_documents_sql env q).2.2 ∧
    (fetch_documents env q).2.1 =
      [Event.cortexSearch q NUM_CHUNKS, Event.sqlSearch q NUM_CHUNKS] := by
  have hc : fetch_documents_cortex env q = ([], [Event.cortexSearch q NUM_CHUNKS]) := by
    rcases h with ⟨e, he⟩ | he <;> simp [fetch_documents_cortex, he]
  refine ⟨?_, ?_, ?_⟩ <;>
    simp [fetch_documents, hc, fetch_documents_sql_events env q]

/-- Witness for C1: a concrete environment whose semantic search raises
and whose keyword search returns one document. -/
theorem C1_semantic_fallback_witness :
    (("AR-V7" : String) ≠ "" ∧
      ((∃ e, envSemFail.cortex "AR-V7" NUM_CHUNKS = Except.error e) ∨
        envSemFail.cortex "AR-V7" NUM_CHUNKS = Except.ok [])) ∧
    ((fetch_documents envSemFail "AR-V7").1 = (fetch_documents_sql envSemFail "AR-V7").1 ∧
     (fetch_documents envSemFail "AR-V7").2.2 = (fetch_documents_sql envSemFail "AR-V7").2.2 ∧
     (fetch_documents envSemFail "AR-V7").2.1 =
       [Event.cortexSearch "AR-V7" NUM_CHUNKS, Event.sqlSearch "AR-V7" NUM_CHUNKS]) :=
  ⟨⟨by decide, Or.inl ⟨"cortex down", rfl⟩⟩,
   C1_semantic_fallback envSemFail "AR-V7" (by decide) (Or.inl ⟨"cortex down", rfl⟩)⟩

/-- Claim C2 (code bug in app.py): a failing query-log write is caught and
reported inside `log_query_and_get_query_id`, but the handler then crashes:
`context` is assigned only inside the `if query_id:` block, so the later
`if context.strip():` raises an unhandled `NameError`.  Concretely, with a
failing store write the run reports the write error and ends in a crash
rather than a clean abort. -/
theorem C2_log_failure_crashes :
    (fetchAndAnalyze envLogFail "q" "").msgs =
      [Msg.error "Error logging query: store write failed"] ∧
    (fetchAndAnalyze envLogFail "q" "").crashed = true := by
  decide

/-- Claim C6: for every whitespace-only context (in particular `""`,
`"   "` and `"\n"`), `generate_insights` returns the fixed sentinel and
never calls the completion endpoint. -/
theorem C6_blank_context_sentinel (env : Env) (context : String)
    (h : isBlank context = true) :
    (generate_insights env context).1 =
      "No valid context provided for generating insights." ∧
    (generate_insights env context).2.countP Event.isComplete = 0 := by
  refine ⟨?_, ?_⟩ <;>
    simp [generate_insights, h, List.countP_cons, Event.isComplete]

/-- Witness for C6 at the three contexts named by the spec. -/
theorem C6_blank_context_sentinel_witness :
    (isBlank "" = true ∧
      (generate_insights envOk "").1 =
        "No valid context provided for generating insights." ∧
      (generate_insights envOk "").2.countP Event.isComplete = 0) ∧
    (isBlank "   " = true ∧
      (generate_insights envOk "   ").1 =
        "No valid context provided for generating insights." ∧
      (generate_insights envOk "   ").2.countP Event.isComplete = 0) ∧
    (isBlank "\n" = true ∧
      (generate_insights envOk "\n").1 =
        "No valid context provided for generating insights." ∧
      (generate_insights envOk "\n").2.countP Event.isComplete = 0) :=
  ⟨⟨by decide, C6_blank_context_sentinel envOk "" (by decide)⟩,
   ⟨by decide, C6_blank_context_sentinel envOk "   " (by decide)⟩,
   ⟨by decide, C6_blank_context_sentinel envOk "\n" (by decide)⟩⟩

/-- Claim C7: for every non-whitespace context the generator is a total
function into `String` — the embedded `try/except` converts a raised
completion failure with detail `e` into the returned formatted error string
containing that detail, instead of propagating the exception. -/
theorem C7_generation_failure_reported (env : Env) (context e : String)
    (h : isBlank context = false)
    (hf : env.complete "mistral-large2" (promptFor context) = Except.error e) :
    (generate_insights env context).1 = "Error generating insights: " ++ e := by
  simp [generate_insights, h, hf]

/-- Witness for C7: a concrete endpoint failure is reported in the result. -/
theorem C7_generation_failure_reported_witness :
    (isBlank "some context" = false ∧
      envGenFail.complete "mistral-large2" (promptFor "some context") =
        Except.error "completion failed") ∧
    (generate_insights envGenFail "some context").1 =
      "Error generating insights: " ++ "completion failed" :=
  ⟨⟨by decide, rfl⟩,
   C7_generation_failure_reported envGenFail "some context" "completion failed"
     (by decide) rfl⟩

/-- Claim C3 as stated is false on the code: with a non-empty query, empty
custom context, a successful query log and a semantic search returning two
documents whose `CONTENT` fields are empty, the joined context is the
whitespace string `"\n"`, so the handler skips generation with a warning —
`generate` is invoked zero times, not once. -/
theorem C3_counterexample :
    ¬ ((fetchAndAnalyze envTwoEmptyDocs "AR-V7 resistance" "").events.countP
        Event.isGenerate = 1) := by
  decide

/-- Claim C3 (amended): scenario A additionally requires the joined
`CONTENT` fields not to be whitespace-only.  Then: the two documents are
the fetch result, the run's calls are exactly one query log, one semantic
search, one `generate` invocation at the newline-joined CONTENT fields, one
completion call and one insight log at the non-null id; the documents are
displayed; and the run does not crash. -/
theorem C3_scenario_a (env : Env) (q : String) (n : Int) (d1 d2 : Doc)
    (hq : q ≠ "") (hn : n ≠ 0)
    (hlog : env.logQuery q 1 = Except.ok (some n))
    (hcx : env.cortex q NUM_CHUNKS = Except.ok [d1, d2])
    (hctx : isBlank (String.intercalate "\n" [d1.CONTENT, d2.CONTENT]) = false) :
    (fetch_documents env q).1 = [d1, d2] ∧
    (fetchAndAnalyze env q "").events =
      [Event.logQuery q 1, Event.cortexSearch q NUM_CHUNKS,
       Event.generate (String.intercalate "\n" [d1.CONTENT, d2.CONTENT]),
       Event.complete "mistral-large2"
         (promptFor (String.intercalate "\n" [d1.CONTENT, d2.CONTENT])),
       Event.logInsight
         (generate_insights env (String.intercalate "\n" [d1.CONTENT, d2.CONTENT])).1 n] ∧
    Msg.json [d1, d2] ∈ (fetchAndAnalyze env q "").msgs ∧
    (fetchAndAnalyze env q "").events.countP Event.isLogQuery = 1 ∧
    (fetchAndAnalyze env q "").events.countP Event.isGenerate = 1 ∧
    (fetchAndAnalyze env q "").events.countP Event.isLogInsight = 1 ∧
    (fetchAndAnalyze env q "").crashed = false := by
  have hfc : fetch_documents_cortex env q =
      ([d1, d2], [Event.cortexSearch q NUM_CHUNKS]) := by
    simp [fetch_documents_cortex, hcx]
  have hfd : fetch_documents env q =
      ([d1, d2], [Event.cortexSearch q NUM_CHUNKS], []) := by
    simp [fetch_documents, hfc]
  have hlq : log_query_and_get_query_id env q 1 =
      (some n, [Event.logQuery q 1], []) := by
    simp [log_query_and_get_query_id, hlog]
  have htr : truthyId (some n) = true := by simp [truthyId, hn]
  have hgp : genPhase env (some n) (String.intercalate "\n" [d1.CONTENT, d2.CONTENT]) =
      ([Event.generate (String.intercalate "\n" [d1.CONTENT, d2.CONTENT]),
        Event.complete "mistral-large2"
          (promptFor (String.intercalate "\n" [d1.CONTENT, d2.CONTENT])),
        Event.logInsight
          (generate_insights env (String.intercalate "\n" [d1.CONTENT, d2.CONTENT])).1 n],
       [Msg.markdown "### Generated Insights",
        Msg.write (generate_insights env (String.intercalate "\n" [d1.CONTENT, d2.CONTENT])).1]
         ++ (log_insights env
              (generate_insights env (String.intercalate "\n" [d1.CONTENT, d2.CONTENT])).1 n).2) := by
    simp [genPhase, hctx, htr,
      generate_insights_events env _ hctx, log_insights_events]
  refine ⟨by rw [hfd], ?_, ?_, ?_, ?_, ?_, ?_⟩ <;>
    simp [fetchAndAnalyze, hq, hlq, htr, hfd, hgp, List.countP_cons,
      Event.isLogQuery, Event.isGenerate, Event.isLogInsight]

/-- Witness for C3 (amended): a concrete environment realizing scenario A. -/
theorem C3_scenario_a_witness :
    (("AR-V7 resistance" : String) ≠ "" ∧ (2 : Int) ≠ 0 ∧
      envTwoDocs.logQuery "AR-V7 resistance" 1 = Except.ok (some 2) ∧
      envTwoDocs.cortex "AR-V7 resistance" NUM_CHUNKS = Except.ok [docAlpha, docBeta] ∧
      isBlank (String.intercalate "\n" [docAlpha.CONTENT, docBeta.CONTENT]) = false) ∧
    (fetchAndAnalyze envTwoDocs "AR-V7 resistance" "").events.countP Event.isLogQuery = 1 ∧
    (fetchAndAnalyze envTwoDocs "AR-V7 resistance" "").events.countP Event.isGenerate = 1 ∧
    (fetchAndAnalyze envTwoDocs "AR-V7 resistance" "").events.countP Event.isLogInsight = 1 :=
  ⟨⟨by decide, by decide, rfl, rfl, by decide⟩,
   (C3_scenario_a envTwoDocs "AR-V7 resistance" 2 docAlpha docBeta
      (by decide) (by decide) rfl rfl (by decide)).2.2.2.1,
   (C3_scenario_a envTwoDocs "AR-V7 resistance" 2 docAlpha docBeta
      (by decide) (by decide) rfl rfl (by decide)).2.2.2.2.1,
   (C3_scenario_a envTwoDocs "AR-V7 resistance" 2 docAlpha docBeta
      (by decide) (by decide) rfl rfl (by decide)).2.2.2.2.2.1⟩

/-- Claim C4 as stated is false on the code: a non-empty but whitespace-only
custom context (`" "`) is truthy in Python, so the custom-context path is
taken, but `context.strip()` is falsy — generation is skipped with a
warning and no insight is displayed. -/
theorem C4_counterexample :
    ¬ (Event.generate " " ∈ (fetchAndAnalyze envOk "" " ").events) := by
  decide

/-- Claim C4 (amended): scenario B additionally requires the custom context
not to be whitespace-only.  Then no query is logged, the run's only calls
are the `generate` invocation at the custom context verbatim and its
completion call, no insight is logged (the run's query id is null), and the
generated insight text is displayed. -/
theorem C4_scenario_b (env : Env) (query cc : String)
    (hcc : isBlank cc = false) :
    (fetchAndAnalyze env query cc).events =
      [Event.generate cc, Event.complete "mistral-large2" (promptFor cc)] ∧
    (fetchAndAnalyze env query cc).msgs =
      [Msg.markdown "### Generated Insights",
       Msg.write (generate_insights env cc).1] ∧
    (fetchAndAnalyze env query cc).events.countP Event.isLogQuery = 0 ∧
    (fetchAndAnalyze env query cc).events.countP Event.isLogInsight = 0 ∧
    (fetchAndAnalyze env query cc).crashed = false := by
  have hne : cc ≠ "" := by
    intro h
    subst h
    have ht : isBlank "" = true := by decide
    rw [ht] at hcc
    exact Bool.noConfusion hcc
  have hgp : genPhase env none cc =
      ([Event.generate cc, Event.complete "mistral-large2" (promptFor cc)],
       [Msg.markdown "### Generated Insights",
        Msg.write (generate_insights env cc).1]) := by
    simp [genPhase, hcc, truthyId, generate_insights_events env cc hcc]
  refine ⟨?_, ?_, ?_, ?_, ?_⟩ <;>
    simp [fetchAndAnalyze, hne, hgp, List.countP_cons,
      Event.isLogQuery, Event.isLogInsight]

/-- Witness for C4 (amended): concrete custom context "some text". -/
theorem C4_scenario_b_witness :
    isBlank "some text" = false ∧
    ((fetchAndAnalyze envOk "" "some text").events =
      [Event.generate "some text",
       Event.complete "mistral-large2" (promptFor "some text")] ∧
     (fetchAndAnalyze envOk "" "some text").msgs =
      [Msg.markdown "### Generated Insights",
       Msg.write (generate_insights envOk "some text").1] ∧
     (fetchAndAnalyze envOk "" "some text").events.countP Event.isLogQuery = 0 ∧
     (fetchAndAnalyze envOk "" "some text").events.countP Event.isLogInsight = 0 ∧
     (fetchAndAnalyze envOk "" "some text").crashed = false) :=
  ⟨by decide, C4_scenario_b envOk "" "some text" (by decide)⟩

/-- Claim C5 as stated is false on the code: when the keyword search also
raises, `fetch_documents_sql` reports the failure via `st.error`, so the
warning is not the only user-visible outcome of the trigger. -/
theorem C5_counterexample :
    ¬ (∀ m ∈ (fetchAndAnalyze envBothFail "x" "").msgs, ∃ s, m = Msg.warning s) := by
  intro h
  rcases h (Msg.error "Error fetching documents using SQL search: sql down")
      (by decide) with ⟨s, hs⟩
  exact Msg.noConfusion hs

/-- Claim C5 (amended): in scenario C the context is empty and generation
is skipped entirely (no `generate` and no completion call), but the
user-visible outcome is the keyword-search error banner followed by the
warning — not the warning alone. -/
theorem C5_scenario_c (env : Env) (q : String) (n : Int) (e1 e2 : String)
    (hq : q ≠ "") (hn : n ≠ 0)
    (hlog : env.logQuery q 1 = Except.ok (some n))
    (hc : env.cortex q NUM_CHUNKS = Except.error e1)
    (hs : env.sql q NUM_CHUNKS = Except.error e2) :
    (fetchAndAnalyze env q "").events =
      [Event.logQuery q 1, Event.cortexSearch q NUM_CHUNKS,
       Event.sqlSearch q NUM_CHUNKS] ∧
    (fetchAndAnalyze env q "").msgs =
      [Msg.error ("Error fetching documents using SQL search: " ++ e2),
       Msg.warning "No valid context found or provided."] ∧
    (fetchAndAnalyze env q "").crashed = false := by
  have hfc : fetch_documents_cortex env q =
      ([], [Event.cortexSearch q NUM_CHUNKS]) := by
    simp [fetch_documents_cortex, hc]
  have hfs : fetch_documents_sql env q =
      ([], [Event.sqlSearch q NUM_CHUNKS],
       [Msg.error ("Error fetching documents using SQL search: " ++ e2)]) := by
    simp [fetch_documents_sql, hs]
  have hfd : fetch_documents env q =
      ([], [Event.cortexSearch q NUM_CHUNKS, Event.sqlSearch q NUM_CHUNKS],
       [Msg.error ("Error fetching documents using SQL search: " ++ e2)]) := by
    simp [fetch_documents, hfc, hfs]
  have hlq : log_query_and_get_query_id env q 1 =
      (some n, [Event.logQuery q 1], []) := by
    simp [log_query_and_get_query_id, hlog]
  have htr : truthyId (some n) = true := by simp [truthyId, hn]
  have hb : isBlank "" = true := by decide
  have hgp : genPhase env (some n) "" =
      ([], [Msg.warning "No valid context found or provided."]) := by
    simp [genPhase, hb]
  refine ⟨?_, ?_, ?_⟩ <;>
    simp [fetchAndAnalyze, hq, hlq, htr, hfd, hgp]

/-- Witness for C5 (amended): both searches raise concretely. -/
theorem C5_scenario_c_witness :
    (("x" : String) ≠ "" ∧ (1 : Int) ≠ 0 ∧
      envBothFail.logQuery "x" 1 = Except.ok (some 1) ∧
      envBothFail.cortex "x" NUM_CHUNKS = Except.error "cortex down" ∧
      envBothFail.sql "x" NUM_CHUNKS = Except.error "sql down") ∧
    ((fetchAndAnalyze envBothFail "x" "").events =
      [Event.logQuery "x" 1, Event.cortexSearch "x" NUM_CHUNKS,
       Event.sqlSearch "x" NUM_CHUNKS] ∧
     (fetchAndAnalyze envBothFail "x" "").msgs =
      [Msg.error ("Error fetching documents using SQL search: " ++ "sql down"),
       Msg.warning "No valid context found or provided."] ∧
     (fetchAndAnalyze envBothFail "x" "").crashed = false) :=
  ⟨⟨by decide, by decide, rfl, rfl, rfl⟩,
   C5_scenario_c envBothFail "x" 1 "cortex down" "sql down"
     (by decide) (by decide) rfl rfl rfl⟩

/-- Claim C10: for every non-whitespace context, when the completion call
succeeds with an empty result sequence, `generate_insights` returns the
fixed string `"No response generated."` instead of indexing out of bounds. -/
theorem C10_empty_completion_handled (env : Env) (context : String)
    (h : isBlank context = false)
    (hc : env.complete "mistral-large2" (promptFor context) = Except.ok []) :
    (generate_insights env context).1 = "No response generated." := by
  simp [generate_insights, h, hc]

/-- Witness for C10: a concrete endpoint returning no rows. -/
theorem C10_empty_completion_handled_witness :
    (isBlank "some context" = false ∧
      envGenEmpty.complete "mistral-large2" (promptFor "some context") =
        Except.ok []) ∧
    (generate_insights envGenEmpty "some context").1 = "No response generated." :=
  ⟨⟨by decide, rfl⟩,
   C10_empty_completion_handled envGenEmpty "some context" (by decide) rfl⟩

/-- In a list whose keys under `f` are pairwise distinct, filtering by the
key of a member yields exactly one row. -/
theorem filter_key_length_one {α β : Type} [DecidableEq β] (f : α → β) (k : β)
    (l : List α) (hnd : (l.map f).Nodup) (hmem : ∃ a ∈ l, f a = k) :
    (l.filter (fun a => f a == k)).length = 1 := by
  rcases hmem with ⟨a, ha, hak⟩
  have hk : k ∈ l.map f := hak ▸ List.mem_map_of_mem f ha
  have h1 : (l.map f).count k = 1 := List.count_eq_one_of_mem hnd hk
  rw [← List.countP_eq_length_filter]
  calc List.countP (fun a => f a == k) l
      = List.countP ((fun b => b == k) ∘ f) l := rfl
    _ = List.countP (fun b => b == k) (l.map f) := (List.countP_map _ f l).symm
    _ = (l.map f).count k := (List.count_eq_countP k (l.map f)).symm
    _ = 1 := h1

/-- Under the store invariants — insight ids are unique and every feedback
row references an existing insight — the inner join has exactly one output
row per feedback row. -/
theorem joinWith_length (ins : List InsightRow) (fb : List FeedbackRow)
    (hnd : (ins.map InsightRow.INSIGHTID).Nodup)
    (hfk : ∀ fl ∈ fb, ∃ i ∈ ins, i.INSIGHTID = fl.INSIGHTID) :
    (joinWith ins fb).length = fb.length := by
  induction fb with
  | nil => rfl
  | cons fl rest ih =>
      have h1 : (ins.filter (fun i => i.INSIGHTID == fl.INSIGHTID)).length = 1 :=
        filter_key_length_one InsightRow.INSIGHTID fl.INSIGHTID ins hnd
          (hfk fl (List.mem_cons_self _ _))
      have h2 := ih (fun g hg => hfk g (List.mem_cons_of_mem _ hg))
      simp [joinWith, List.length_append, List.length_map, h1, h2,
        Nat.add_comm]

/-- The `LIMIT 1` row of the insights sorted by `GENERATEDAT DESC` is a row
of the table achieving the maximal `GENERATEDAT`. -/
theorem latestInsight_max (s : Store) (hne : s.insights ≠ []) :
    ∃ i, latestInsight s = some i ∧ i ∈ s.insights ∧
      ∀ j ∈ s.insights, j.GENERATEDAT ≤ i.GENERATEDAT := by
  have hperm := List.perm_insertionSort insGe s.insights
  have hsort := List.sorted_insertionSort insGe s.insights
  rcases hl : List.insertionSort insGe s.insights with _ | ⟨x, xs⟩
  · rw [hl] at hperm
    exact absurd (List.perm_nil.mp hperm.symm) hne
  · rw [hl] at hperm hsort
    refine ⟨x, by simp [latestInsight, hl], ?_, ?_⟩
    · exact hperm.mem_iff.mp (List.mem_cons_self x xs)
    · intro j hj
      rcases List.mem_cons.mp (hperm.symm.mem_iff.mp hj) with hjx | hjxs
      · exact hjx ▸ Nat.le_refl _
      · exact (List.sorted_cons.mp hsort).1 j hjxs

/-- Claim C8 as stated is false on the code: with two feedback rows sharing
the same `LOGGEDAT` timestamp the view's `ORDER BY LOGGEDAT DESC` output
cannot be strictly descending. -/
theorem C8_counterexample :
    ¬ List.Chain' (fun a b : FeedbackView => b.LOGGEDAT < a.LOGGEDAT)
        (viewFeedbackLogs storeTie) := by
  intro h
  have hv : viewFeedbackLogs storeTie =
      [⟨"a", "Positive", "i1", 7⟩, ⟨"b", "Negative", "i1", 7⟩] := by decide
  rw [hv] at h
  rcases List.chain'_cons.mp h with ⟨h1, _⟩
  exact absurd h1 (by decide)

/-- Claim C8 (amended): over a store whose insight ids are unique and whose
feedback rows all reference existing insights, the view returns exactly one
record per feedback row, ordered by `LOGGEDAT` descending (non-strictly:
ties are possible); an empty store yields the empty sequence, not an
error. -/
theorem C8_feedback_view (s : Store)
    (hnd : (s.insights.map InsightRow.INSIGHTID).Nodup)
    (hfk : ∀ fl ∈ s.feedback, ∃ i ∈ s.insights, i.INSIGHTID = fl.INSIGHTID) :
    (viewFeedbackLogs s).length = s.feedback.length ∧
    List.Sorted viewGe (viewFeedbackLogs s) ∧
    (s.feedback = [] → viewFeedbackLogs s = []) := by
  refine ⟨?_, ?_, ?_⟩
  · rw [viewFeedbackLogs, List.length_insertionSort]
    exact joinWith_length _ _ hnd hfk
  · exact List.sorted_insertionSort viewGe _
  · intro h
    simp [viewFeedbackLogs, h, joinWith, List.insertionSort]

/-- Witness for C8 (amended): the tied-timestamp store satisfies the
invariants and the amended conclusion. -/
theorem C8_feedback_view_witness :
    ((storeTie.insights.map InsightRow.INSIGHTID).Nodup ∧
      (∀ fl ∈ storeTie.feedback, ∃ i ∈ storeTie.insights,
        i.INSIGHTID = fl.INSIGHTID)) ∧
    ((viewFeedbackLogs storeTie).length = storeTie.feedback.length ∧
     List.Sorted viewGe (viewFeedbackLogs storeTie) ∧
     (storeTie.feedback = [] → viewFeedbackLogs storeTie = [])) :=
  ⟨⟨by decide, by decide⟩, C8_feedback_view storeTie (by decide) (by decide)⟩

/-- Claim C9: submitting non-empty feedback over a store with no insight
rows reports the failure and leaves the store unchanged (no feedback row is
created); over a store with insights, the new feedback row references an
insight whose `GENERATEDAT` is maximal at submission time. -/
theorem C9_feedback_submission (s : Store) (t ty : String) (now : Nat)
    (ht : t ≠ "") :
    (s.insights = [] →
      submitFeedback s t ty now =
        (s, [Msg.error "Error submitting feedback: list index out of range"])) ∧
    (s.insights ≠ [] →
      ∃ i, i ∈ s.insights ∧
        (∀ j ∈ s.insights, j.GENERATEDAT ≤ i.GENERATEDAT) ∧
        submitFeedback s t ty now =
          ({ s with feedback := s.feedback ++ [⟨t, ty, i.INSIGHTID, now⟩] },
           [Msg.success "Feedback submitted successfully!"])) := by
  constructor
  · intro h
    have hnone : latestInsight s = none := by
      simp [latestInsight, h, List.insertionSort]
    simp [submitFeedback, ht, hnone]
  · intro h
    rcases latestInsight_max s h with ⟨i, hlat, hmem, hmax⟩
    exact ⟨i, hmem, hmax, by simp [submitFeedback, ht, hlat]⟩

/-- Witness for C9 at a concrete two-insight store and non-empty feedback
text (the newer insight, id 2, is the one referenced). -/
theorem C9_feedback_submission_witness :
    ("helpful" : String) ≠ "" ∧
    ((storeTwoInsights.insights = [] →
      submitFeedback storeTwoInsights "helpful" "Positive" 9 =
        (storeTwoInsights,
         [Msg.error "Error submitting feedback: list index out of range"])) ∧
     (storeTwoInsights.insights ≠ [] →
      ∃ i, i ∈ storeTwoInsights.insights ∧
        (∀ j ∈ storeTwoInsights.insights, j.GENERATEDAT ≤ i.GENERATEDAT) ∧
        submitFeedback storeTwoInsights "helpful" "Positive" 9 =
          ({ storeTwoInsights with feedback :=
              storeTwoInsights.feedback ++ [⟨"helpful", "Positive", i.INSIGHTID, 9⟩] },
           [Msg.success "Feedback submitted successfully!"]))) :=
  ⟨by decide,
   C9_feedback_submission storeTwoInsights "helpful" "Positive" 9 (by decide)⟩

end App
